import Mathlib

/-!
Shallow embedding of `src/error.rs` of the exif-rs repository: the `Error`
enum, the `PartialResult` payload, `distill_partial_result`, the `From`
conversion from I/O errors, the `Display` and `Debug` renderings and
`source()`.

Modelling conventions:
- `std::io::Error` is an external std type; it is embedded as an opaque
  message-carrying value whose `Display` rendering is that message.
- `crate::Exif` (the Document) is repository code outside this module; per
  the spec boundary it only needs a field-count query, so it is embedded as
  a list of opaque field tokens.
- `std::sync::Mutex` is embedded as its payload plus a poison flag; the
  operations the source uses (`lock().expect`, `into_inner().expect`)
  panic exactly when the flag is set, and a panic is embedded as `none`.
- The `FnOnce(Vec<Error>)` handler of `distill_partial_result` is embedded
  as a state transformer `List Error → σ → σ`; the returned final state
  records the handler's side effects, so "invoked exactly once with list
  `es`" is expressed as the final state being `f es s₀`.
-/

/-- Modelled from the spec: `std::io::Error` is an external collaborator
(transport failures); only its `Display` rendering is observable here, so it
is embedded as the message it renders. -/
structure IoError where
  message : String

/-- Display rendering of the wrapped I/O error (`err.fmt(f)` delegates to it). -/
def IoError.display (e : IoError) : String :=
  e.message

/-- Debug rendering of the external `std::io::Error`; abstracted as its
message, since the std formatting of an I/O error is outside the repository. -/
def IoError.debugFmt (e : IoError) : String :=
  e.message

/-- Modelled from the spec: the Document (`crate::Exif`) is external to this
module and "must expose at minimum a field-count query" (`fields().len()`);
its fields are kept as opaque tokens. -/
structure Exif where
  fields : List Nat

/-- Embedding of `std::sync::Mutex<α>`: the protected value plus a poison
flag. In the source the mutex is a shareability marker only; its poisoned
state is the one way `lock`/`into_inner` can fail. -/
structure Mutex (α : Type) where
  data : α
  poisoned : Bool

/-- `Mutex::new`: a freshly created mutex is unpoisoned. -/
def Mutex.new {α : Type} (a : α) : Mutex α :=
  ⟨a, false⟩

/-- `lock().expect(..)`: yields the protected value, panics (`none`) iff
the mutex is poisoned. -/
def Mutex.lock {α : Type} (m : Mutex α) : Option α :=
  if m.poisoned then none else some m.data

/-- `into_inner().expect(..)`: consumes the mutex and yields the protected
value, panics (`none`) iff the mutex is poisoned. -/
def Mutex.into_inner {α : Type} (m : Mutex α) : Option α :=
  if m.poisoned then none else some m.data

mutual

/-- The `Error` enum of `src/error.rs`, variant for variant. -/
inductive Error : Type where
  | InvalidFormat (msg : String)
  | Io (err : IoError)
  | NotFound (ctn : String)
  | BlankValue (msg : String)
  | TooBig (msg : String)
  | NotSupported (msg : String)
  | UnexpectedValue (msg : String)
  | PartialResult (pr : PartialResult)

/-- `pub struct PartialResult(Box<(Mutex<crate::Exif>, Vec<Error>)>)`;
the `Box` indirection is transparent in the embedding. -/
inductive PartialResult : Type where
  | mk (guard : Mutex Exif) (errors : List Error)

end

/-- The `Mutex<Exif>` component `self.0.0` of a `PartialResult`. -/
def PartialResult.guard : PartialResult → Mutex Exif
  | .mk g _ => g

/-- The `Vec<Error>` component `self.0.1` of a `PartialResult`. -/
def PartialResult.errors : PartialResult → List Error
  | .mk _ es => es

/-- `PartialResult::new(exif, errors)`: wraps the document in a fresh mutex. -/
def PartialResult.new (exif : Exif) (errors : List Error) : PartialResult :=
  .mk (Mutex.new exif) errors

/-- `PartialResult::into_inner`: destructures the box and calls
`exif.into_inner().expect("should not panic")`; `none` embeds the panic. -/
def PartialResult.into_inner : PartialResult → Option (Exif × List Error)
  | .mk g errors => (Mutex.into_inner g).map fun exif => (exif, errors)

/-- `Error::distill_partial_result`. The `FnOnce(Vec<Error>)` handler `f` is
embedded as a state transformer and the final state is returned next to the
`Result`; `none` embeds the panic inside `into_inner`. -/
def Error.distill_partial_result {σ : Type} (e : Error) (f : List Error → σ → σ)
    (s : σ) : Option (Except Error Exif × σ) :=
  match e with
  | .PartialResult pr =>
    match pr.into_inner with
    | some (exif, errors) => some (Except.ok exif, f errors s)
    | none => none
  | _ => some (Except.error e, s)

/-- `impl From<io::Error> for Error`. -/
def Error.from_io (err : IoError) : Error :=
  .Io err

/-- `impl fmt::Display for Error`, arm for arm; `none` embeds the panic of
`lock().expect` on a poisoned guard in the `PartialResult` arm. -/
def Error.display : Error → Option String
  | .InvalidFormat msg => some msg
  | .Io err => some err.display
  | .NotFound ctn => some ("No Exif data found in " ++ ctn)
  | .BlankValue msg => some msg
  | .TooBig msg => some msg
  | .NotSupported msg => some msg
  | .UnexpectedValue msg => some msg
  | .PartialResult (.mk g errors) =>
    g.lock.map fun exif =>
      "Partial result with " ++ toString exif.fields.length ++
        " fields and " ++ toString errors.length ++ " errors"

/-- `impl error::Error for Error`, the `source` method, arm for arm. -/
def Error.source : Error → Option IoError
  | .InvalidFormat _ => none
  | .Io err => some err
  | .NotFound _ => none
  | .BlankValue _ => none
  | .TooBig _ => none
  | .NotSupported _ => none
  | .UnexpectedValue _ => none
  | .PartialResult _ => none

/-- Discriminator: whether an `Error` is the `Io` variant. -/
def Error.isIo : Error → Bool
  | .Io _ => true
  | _ => false

/-- Discriminator: whether an `Error` is the `PartialResult` variant. -/
def Error.isPartialResult : Error → Bool
  | .PartialResult _ => true
  | _ => false

/-- Escaping of one character in Rust's `Debug` for strings; the full
unicode treatment of `char::escape_debug` is abstracted to the common
escapes, which no claim depends on. -/
def rustCharEscape (c : Char) : String :=
  if c = '"' then "\\\""
  else if c = '\\' then "\\\\"
  else if c = '\n' then "\\n"
  else if c = '\t' then "\\t"
  else if c = '\r' then "\\r"
  else String.singleton c

/-- Rust's `Debug` rendering of a `&str`: the escaped text in quotes. -/
def rustStrDebug (s : String) : String :=
  "\"" ++ String.join (s.toList.map rustCharEscape) ++ "\""

mutual

/-- `#[derive(Debug)]` on `Error`: constructor name around the payload's
Debug rendering; `none` embeds a panic raised while formatting a nested
`PartialResult` with a poisoned guard. -/
def Error.debugFmt : Error → Option String
  | .InvalidFormat msg => some ("InvalidFormat(" ++ rustStrDebug msg ++ ")")
  | .Io err => some ("Io(" ++ err.debugFmt ++ ")")
  | .NotFound ctn => some ("NotFound(" ++ rustStrDebug ctn ++ ")")
  | .BlankValue msg => some ("BlankValue(" ++ rustStrDebug msg ++ ")")
  | .TooBig msg => some ("TooBig(" ++ rustStrDebug msg ++ ")")
  | .NotSupported msg => some ("NotSupported(" ++ rustStrDebug msg ++ ")")
  | .UnexpectedValue msg => some ("UnexpectedValue(" ++ rustStrDebug msg ++ ")")
  | .PartialResult pr =>
    (PartialResult.debugFmt pr).map fun s => "PartialResult(" ++ s ++ ")"

/-- `impl fmt::Debug for PartialResult`: field count under the lock, then
the `{:?}` rendering of the error vector; `none` embeds the panic of
`lock().expect` on a poisoned guard. -/
def PartialResult.debugFmt : PartialResult → Option String
  | .mk g errors =>
    match g.lock, debugErrorItems errors with
    | some exif, some items =>
      some ("PartialResult(Exif(" ++ toString exif.fields.length ++
        " fields), [" ++ String.intercalate ", " items ++ "])")
    | _, _ => none

/-- The element renderings of `{:?}` on a `Vec<Error>`. -/
def debugErrorItems : List Error → Option (List String)
  | [] => some []
  | e :: rest =>
    match Error.debugFmt e, debugErrorItems rest with
    | some s, some ss => some (s :: ss)
    | _, _ => none

end

/-- The `Debug` rendering of a `Vec<Error>` lists exactly one item per
suppressed error: the error count it reports is the vector's length. -/
theorem debugErrorItems_length (l : List Error) (items : List String)
    (h : debugErrorItems l = some items) : items.length = l.length := by
  induction l generalizing items with
  | nil =>
    simp [debugErrorItems] at h
    simp [← h]
  | cons e rest ih =>
    rw [debugErrorItems] at h
    cases he : Error.debugFmt e with
    | none => simp [he] at h
    | some s =>
      cases hr : debugErrorItems rest with
      | none => simp [he, hr] at h
      | some ss =>
        simp [he, hr] at h
        simp [← h, ih ss hr]

/-- C1: on `Error::PartialResult` with embedded document `g.data` and error
list `es`, `distill_partial_result` returns `Ok` of the exact embedded
document, and the final handler state is `f es s`: the handler was applied
exactly once, to the exact embedded list (order and length preserved). The
unpoisoned hypothesis states the exclusive-ownership situation in which the
source's `expect` cannot fire. -/
theorem C1_distill_on_partial_result {σ : Type} (g : Mutex Exif)
    (es : List Error) (f : List Error → σ → σ) (s : σ)
    (h : g.poisoned = false) :
    Error.distill_partial_result (.PartialResult (.mk g es)) f s
      = some (Except.ok g.data, f es s) := by
  simp [Error.distill_partial_result, PartialResult.into_inner,
    Mutex.into_inner, h]

/-- C1 witness: the spec's scenario handler, recording its argument. -/
theorem C1_witness :
    (Mutex.new (Exif.mk [1, 2, 3])).poisoned = false ∧
    Error.distill_partial_result
        (.PartialResult (.mk (Mutex.new (Exif.mk [1, 2, 3]))
          [.InvalidFormat "bad tag", .UnexpectedValue "bad type"]))
        (fun es t => t ++ [es]) ([] : List (List Error))
      = some (Except.ok (Mutex.new (Exif.mk [1, 2, 3])).data,
          (fun es t => t ++ [es])
            [Error.InvalidFormat "bad tag", Error.UnexpectedValue "bad type"]
            ([] : List (List Error))) :=
  ⟨rfl, C1_distill_on_partial_result (Mutex.new (Exif.mk [1, 2, 3]))
    [.InvalidFormat "bad tag", .UnexpectedValue "bad type"]
    (fun es t => t ++ [es]) [] rfl⟩

/-- C2: decomposition after construction round-trips losslessly:
`into_inner (new d e) = (d, e)` (with `some` embedding the absence of a
panic: a freshly constructed guard is unpoisoned). -/
theorem C2_round_trip (d : Exif) (e : List Error) :
    PartialResult.into_inner (PartialResult.new d e) = some (d, e) := by
  simp [PartialResult.into_inner, PartialResult.new, Mutex.into_inner,
    Mutex.new]

/-- C3: on every non-`PartialResult` variant, `distill_partial_result`
returns `Err` with the original error unchanged and the handler state is
the initial one: the handler is never invoked. -/
theorem C3_distill_on_other {σ : Type} (e : Error) (f : List Error → σ → σ)
    (s : σ) (h : e.isPartialResult = false) :
    Error.distill_partial_result e f s = some (Except.error e, s) := by
  cases e <;> simp_all [Error.distill_partial_result, Error.isPartialResult]

/-- C3 witness: a concrete non-`PartialResult` error with a recording
handler; the handler state stays empty. -/
theorem C3_witness :
    (Error.NotFound "JPEG").isPartialResult = false ∧
    Error.distill_partial_result (.NotFound "JPEG")
        (fun es t => t ++ [es]) ([] : List (List Error))
      = some (Except.error (.NotFound "JPEG"), ([] : List (List Error))) :=
  ⟨rfl, C3_distill_on_other (.NotFound "JPEG") (fun es t => t ++ [es]) [] rfl⟩

/-- C4: the `Display` rendering of `Error::PartialResult` over a document
with `n` fields and `m` suppressed errors is exactly
"Partial result with n fields and m errors"; `Error.display` is a pure
function of the value, so producing the string neither consumes nor
modifies the `PartialResult`. -/
theorem C4_display_partial_result (g : Mutex Exif) (errors : List Error)
    (n m : Nat) (h : g.poisoned = false) (hn : g.data.fields.length = n)
    (hm : errors.length = m) :
    Error.display (.PartialResult (.mk g errors))
      = some ("Partial result with " ++ toString n ++ " fields and " ++
          toString m ++ " errors") := by
  simp [Error.display, Mutex.lock, h, hn, hm]

/-- C4 witness: the spec's scenario, 3 fields and 2 suppressed errors. -/
theorem C4_witness :
    (Mutex.new (Exif.mk [1, 2, 3])).poisoned = false ∧
    Error.display (.PartialResult (.mk (Mutex.new (Exif.mk [1, 2, 3]))
        [.InvalidFormat "bad tag", .UnexpectedValue "bad type"]))
      = some "Partial result with 3 fields and 2 errors" :=
  ⟨rfl, C4_display_partial_result (Mutex.new (Exif.mk [1, 2, 3]))
    [.InvalidFormat "bad tag", .UnexpectedValue "bad type"] 3 2 rfl rfl rfl⟩

/-- C5: `source()` on `Error::Io` returns exactly the wrapped I/O error,
unchanged; on every other variant, `PartialResult` included, it returns no
cause. -/
theorem C5_source_chaining (err : IoError) (e : Error) (h : e.isIo = false) :
    (Error.Io err).source = some err ∧ e.source = none := by
  refine ⟨rfl, ?_⟩
  cases e <;> simp_all [Error.isIo, Error.source]

/-- C5 witness: a concrete I/O error, and both a `NotFound` and a
`PartialResult` value as non-`Io` variants. -/
theorem C5_witness :
    ((Error.Io ⟨"unexpected end of file"⟩).source
        = some ⟨"unexpected end of file"⟩ ∧
      (Error.NotFound "JPEG").source = none) ∧
    (Error.PartialResult (.mk (Mutex.new (Exif.mk [])) [])).source = none :=
  ⟨C5_source_chaining ⟨"unexpected end of file"⟩ (.NotFound "JPEG") rfl,
    (C5_source_chaining ⟨"unexpected end of file"⟩
      (.PartialResult (.mk (Mutex.new (Exif.mk [])) [])) rfl).2⟩

/-- C6: the whole `Display` table: every message-carrying variant renders
its message verbatim, `Io` delegates to the wrapped error's rendering,
`NotFound` renders "No Exif data found in {ctn}", and `PartialResult`
renders "Partial result with {N} fields and {M} errors". -/
theorem C6_display_table :
    (∀ msg, (Error.InvalidFormat msg).display = some msg) ∧
    (∀ err, (Error.Io err).display = some err.display) ∧
    (∀ ctn, (Error.NotFound ctn).display
      = some ("No Exif data found in " ++ ctn)) ∧
    (∀ msg, (Error.BlankValue msg).display = some msg) ∧
    (∀ msg, (Error.TooBig msg).display = some msg) ∧
    (∀ msg, (Error.NotSupported msg).display = some msg) ∧
    (∀ msg, (Error.UnexpectedValue msg).display = some msg) ∧
    (∀ g errors, Mutex.poisoned g = false →
      (Error.PartialResult (.mk g errors)).display
        = some ("Partial result with " ++ toString (Mutex.data g).fields.length
            ++ " fields and " ++ toString errors.length ++ " errors")) := by
  refine ⟨fun _ => rfl, fun _ => rfl, fun _ => rfl, fun _ => rfl, fun _ => rfl,
    fun _ => rfl, fun _ => rfl, fun g errors h => ?_⟩
  simp [Error.display, Mutex.lock, h]

/-- C6 witness: each arm of the table at a concrete input. -/
theorem C6_witness :
    (Error.InvalidFormat "broken header").display = some "broken header" ∧
    (Error.Io ⟨"eof"⟩).display = some (IoError.display ⟨"eof"⟩) ∧
    (Error.NotFound "JPEG").display = some "No Exif data found in JPEG" ∧
    (Error.BlankValue "blank").display = some "blank" ∧
    (Error.TooBig "too big").display = some "too big" ∧
    (Error.NotSupported "unsupported").display = some "unsupported" ∧
    (Error.UnexpectedValue "odd").display = some "odd" ∧
    (Error.PartialResult (.mk (Mutex.new (Exif.mk [1, 2, 3]))
        [.InvalidFormat "bad tag", .UnexpectedValue "bad type"])).display
      = some "Partial result with 3 fields and 2 errors" :=
  ⟨C6_display_table.1 "broken header",
    C6_display_table.2.1 ⟨"eof"⟩,
    C6_display_table.2.2.1 "JPEG",
    C6_display_table.2.2.2.1 "blank",
    C6_display_table.2.2.2.2.1 "too big",
    C6_display_table.2.2.2.2.2.1 "unsupported",
    C6_display_table.2.2.2.2.2.2.1 "odd",
    C6_display_table.2.2.2.2.2.2.2 (Mutex.new (Exif.mk [1, 2, 3]))
      [.InvalidFormat "bad tag", .UnexpectedValue "bad type"] rfl⟩

/-- C7: `into_inner` consumes the `PartialResult` and returns the document
and the error list as two values whenever the guard is unpoisoned (the
exclusive-ownership precondition: in the embedding no other reference can
hold the guard, so unpoisoned is exactly that precondition); on a poisoned
guard it panics (`none`) rather than returning a recoverable error. -/
theorem C7_into_inner (g : Mutex Exif) (es : List Error) :
    (g.poisoned = false →
      (PartialResult.mk g es).into_inner = some (g.data, es)) ∧
    (g.poisoned = true → (PartialResult.mk g es).into_inner = none) := by
  constructor <;> intro h <;>
    simp [PartialResult.into_inner, Mutex.into_inner, h]

/-- C7 witness: both halves at concrete guards, one unpoisoned and one
poisoned. -/
theorem C7_witness :
    (PartialResult.mk (Mutex.mk (Exif.mk [7]) false)
        [Error.TooBig "huge"]).into_inner
      = some (Exif.mk [7], [Error.TooBig "huge"]) ∧
    (PartialResult.mk (Mutex.mk (Exif.mk [7]) true)
        [Error.TooBig "huge"]).into_inner = none :=
  ⟨(C7_into_inner (Mutex.mk (Exif.mk [7]) false) [Error.TooBig "huge"]).1 rfl,
    (C7_into_inner (Mutex.mk (Exif.mk [7]) true) [Error.TooBig "huge"]).2 rfl⟩

/-- C9: diagnostic formatting is a pure function of the value in this
embedding (so it can be invoked any number of times without consuming or
modifying the `PartialResult`); on an unpoisoned guard, `Debug` of the
`PartialResult` and `Display` of the enclosing `Error` both succeed, report
the same field count, report error counts that agree with the list length
(the `{:?}` vector rendering has exactly one item per error), and two
invocations on the same unmodified value produce equal output. -/
theorem C9_diagnostics_repeatable (g : Mutex Exif) (errors : List Error)
    (items : List String) (h : g.poisoned = false)
    (hi : debugErrorItems errors = some items) :
    PartialResult.debugFmt (.mk g errors)
      = some ("PartialResult(Exif(" ++ toString g.data.fields.length ++
          " fields), [" ++ String.intercalate ", " items ++ "])") ∧
    Error.display (.PartialResult (.mk g errors))
      = some ("Partial result with " ++ toString g.data.fields.length ++
          " fields and " ++ toString errors.length ++ " errors") ∧
    items.length = errors.length ∧
    PartialResult.debugFmt (.mk g errors)
      = PartialResult.debugFmt (.mk g errors) ∧
    Error.display (.PartialResult (.mk g errors))
      = Error.display (.PartialResult (.mk g errors)) := by
  refine ⟨?_, ?_, debugErrorItems_length errors items hi, rfl, rfl⟩
  · rw [PartialResult.debugFmt]
    simp [Mutex.lock, h, hi]
  · simp [Error.display, Mutex.lock, h]

/-- C9 witness: a concrete `PartialResult` with 2 fields and 2 suppressed
errors; both renderings evaluate and agree on the counts. -/
theorem C9_witness :
    PartialResult.debugFmt (.mk (Mutex.new (Exif.mk [4, 9]))
        [.InvalidFormat "bad tag", .UnexpectedValue "bad type"])
      = some ("PartialResult(Exif(" ++ toString
          (Mutex.new (Exif.mk [4, 9])).data.fields.length ++ " fields), [" ++
          String.intercalate ", "
            ["InvalidFormat(\"bad tag\")", "UnexpectedValue(\"bad type\")"]
          ++ "])") ∧
    Error.display (.PartialResult (.mk (Mutex.new (Exif.mk [4, 9]))
        [.InvalidFormat "bad tag", .UnexpectedValue "bad type"]))
      = some "Partial result with 2 fields and 2 errors" ∧
    (["InvalidFormat(\"bad tag\")", "UnexpectedValue(\"bad type\")"]
      : List String).length
      = ([Error.InvalidFormat "bad tag", Error.UnexpectedValue "bad type"]
        : List Error).length :=
  ⟨(C9_diagnostics_repeatable (Mutex.new (Exif.mk [4, 9]))
      [.InvalidFormat "bad tag", .UnexpectedValue "bad type"]
      ["InvalidFormat(\"bad tag\")", "UnexpectedValue(\"bad type\")"]
      rfl rfl).1,
    (C9_diagnostics_repeatable (Mutex.new (Exif.mk [4, 9]))
      [.InvalidFormat "bad tag", .UnexpectedValue "bad type"]
      ["InvalidFormat(\"bad tag\")", "UnexpectedValue(\"bad type\")"]
      rfl rfl).2.1,
    (C9_diagnostics_repeatable (Mutex.new (Exif.mk [4, 9]))
      [.InvalidFormat "bad tag", .UnexpectedValue "bad type"]
      ["InvalidFormat(\"bad tag\")", "UnexpectedValue(\"bad type\")"]
      rfl rfl).2.2.1⟩

/-- C10: the `Display` rendering of `Error::Io(e)` is exactly the rendering
of `e` itself (the arm delegates with `err.fmt(f)` and adds no text), and
the `From` conversion yields the `Io` variant wrapping `e` unchanged. -/
theorem C10_io_delegation (err : IoError) :
    Error.display (Error.from_io err) = some (IoError.display err) ∧
    Error.from_io err = Error.Io err :=
  ⟨rfl, rfl⟩
